import Mathlib

/-!
Verification of the request-handling / state-transition core of the
DayZ Radio System app (Electron main process + `lib/httpServer.cjs`).

The JavaScript source is shallowly embedded:
* JS values flowing through JSON bodies are the inductive `JSValue`
  (with an explicit `undefined` for missing-property access).
* JS numbers (doubles) are modelled as exact rationals plus the special
  values NaN / Infinity / -Infinity; `String(n)` is modelled as the exact
  decimal expansion, which agrees with JavaScript on the ordinary decimal
  values the repository and its tests use.
* The mutable session state of the main process (`mainWindow`,
  `isPTTPressed`, `serverURL`, `lastHeartbeat`) is the structure
  `ServerState`; the request handler becomes a pure function from
  (method, url, parsed body, clock, state) to (state, emitted events,
  response).  Timestamps are `Nat` (milliseconds); `Date.now()` becomes an
  explicit `now` argument, always positive (the wall clock never reads 0).
-/

/-- JavaScript numbers: finite doubles modelled as exact rationals, plus
NaN and the two infinities. -/
inductive JSNum where
  | finite (q : Rat)
  | nan
  | posInf
  | negInf

/-- JavaScript values as they appear in parsed JSON bodies and in the
session state; `undefined` is the result of reading a missing property. -/
inductive JSValue where
  | undefined
  | null
  | bool (b : Bool)
  | num (n : JSNum)
  | str (s : String)
  | arr (elems : List JSValue)
  | obj (fields : List (String × JSValue))

/-- JavaScript truthiness (`if (x)`), as used by the handler's guards:
`undefined`, `null`, `false`, `0`, `NaN` and `""` are falsy. -/
def JSValue.truthy : JSValue → Bool
  | .undefined => false
  | .null => false
  | .bool b => b
  | .num (.finite q) => !(q == 0)
  | .num .nan => false
  | .num .posInf => true
  | .num .negInf => true
  | .str s => !(s == "")
  | .arr _ => true
  | .obj _ => true

/-- Property access `v.k` on a non-nullish receiver: the field's value
on objects (`undefined` for a missing key), `undefined` on boxed
primitives and on arrays (none of which carry these named fields).  On
`null` and `undefined` receivers JS property access throws a TypeError
instead; the handler models that path with the `isNullish` guard placed
at every body field access, before this function is consulted. -/
def JSValue.getField : JSValue → String → JSValue
  | .obj fields, k =>
      match fields.lookup k with
      | some v => v
      | none => .undefined
  | _, _ => .undefined

/-- `typeof v === "object"` — true for `null`, arrays and plain objects. -/
def JSValue.typeofIsObject : JSValue → Bool
  | .null => true
  | .arr _ => true
  | .obj _ => true
  | _ => false

/-- `typeof v === "number"`. -/
def JSValue.isNumber : JSValue → Bool
  | .num _ => true
  | _ => false

/-- `v === null`. -/
def JSValue.isNull : JSValue → Bool
  | .null => true
  | _ => false

/-- `v === undefined`. -/
def JSValue.isUndefined : JSValue → Bool
  | .undefined => true
  | _ => false

/-- `v === null || v === undefined`: property access on such a
receiver throws a TypeError, which the handler's `try/catch` answers
with the generic 400 invalid-JSON reply. -/
def JSValue.isNullish : JSValue → Bool
  | .null => true
  | .undefined => true
  | _ => false

/-- `Array.isArray(v)`. -/
def JSValue.isArray : JSValue → Bool
  | .arr _ => true
  | _ => false

/-- The element list of an array value (`[]` on non-arrays; only applied
after an `Array.isArray` guard). -/
def JSValue.asArray : JSValue → List JSValue
  | .arr xs => xs
  | _ => []

/-- `[0, 1, 2].includes(v)` for the ear-side enum check. -/
def JSValue.inZeroOneTwo : JSValue → Bool
  | .num (.finite q) => q == 0 || q == 1 || q == 2
  | _ => false

/-- Decimal digits of the fractional part `r / den` (with `r < den`),
produced by long division; `fuel` bounds the number of digits, more than
enough for every exactly-representable double the app handles. -/
def fracDigits : Nat → Nat → Nat → String
  | 0, _, _ => ""
  | fuel + 1, r, den =>
      if r = 0 then ""
      else
        let d := r * 10 / den
        let r2 := r * 10 % den
        Nat.repr d ++ fracDigits fuel r2 den

/-- The default decimal text of a finite JS number (`String(n)` on a
finite double): integer part, then a dot and the exact fractional digits
when the value is not integral. -/
def ratToJSString (q : Rat) : String :=
  if q.den = 1 then Int.repr q.num
  else
    let sign := if q.num < 0 then "-" else ""
    let n := q.num.natAbs
    sign ++ Nat.repr (n / q.den) ++ "." ++ fracDigits 2000 (n % q.den) q.den

/-- `String(n)` on a JS number. -/
def JSNum.toJSString : JSNum → String
  | .finite q => ratToJSString q
  | .nan => "NaN"
  | .posInf => "Infinity"
  | .negInf => "-Infinity"

mutual

/-- Default JS string conversion `String(v)`. -/
def JSValue.toJSString : JSValue → String
  | .undefined => "undefined"
  | .null => "null"
  | .bool true => "true"
  | .bool false => "false"
  | .num n => n.toJSString
  | .str s => s
  | .arr xs => JSValue.joinArr xs
  | .obj _ => "[object Object]"

/-- Array-to-string join with `,` (the `Array.prototype.toString` path). -/
def JSValue.joinArr : List JSValue → String
  | [] => ""
  | [x] => JSValue.elemStr x
  | x :: y :: rest => JSValue.elemStr x ++ "," ++ JSValue.joinArr (y :: rest)

/-- Inside an array join, `null` and `undefined` print as the empty
string; every other element uses its default conversion. -/
def JSValue.elemStr : JSValue → String
  | .undefined => ""
  | .null => ""
  | .bool b => JSValue.toJSString (.bool b)
  | .num n => JSValue.toJSString (.num n)
  | .str s => JSValue.toJSString (.str s)
  | .arr xs => JSValue.toJSString (.arr xs)
  | .obj fields => JSValue.toJSString (.obj fields)

end

/-- `lib/httpServer.cjs` `frequencyToString(frequency)`:
`return String(frequency)`. -/
def frequencyToString (frequency : JSValue) : String :=
  frequency.toJSString

/-- `lib/httpServer.cjs` `isValidFrequency(freq)`: a non-null value of
object type whose `frequency` property is a number and whose `earSide`
property is a number contained in `[0, 1, 2]`. -/
def isValidFrequency (freq : JSValue) : Bool :=
  freq.typeofIsObject && !freq.isNull &&
    (freq.getField "frequency").isNumber &&
    (freq.getField "earSide").isNumber &&
    (freq.getField "earSide").inZeroOneTwo

/-- `lib/httpServer.cjs` `isValidFrequenciesArray(frequencies)`:
`Array.isArray` guard, then `every(isValidFrequency)`. -/
def isValidFrequenciesArray (frequencies : JSValue) : Bool :=
  match frequencies with
  | .arr xs => xs.all isValidFrequency
  | _ => false

/-- `lib/httpServer.cjs` `getConnectionStatus(serverURL, mainWindow)`:
`serverURL` is tested for JS truthiness, the window only for presence. -/
def getConnectionStatus (serverURL : JSValue) (mainWindow : Bool) : String :=
  if serverURL.truthy then "CONNECTED"
  else if mainWindow then "WAITING_FOR_CONNECTION"
  else "DISCONNECTED"

/-- An HTTP response as the handler produces it: a status code and the
JSON body handed to `sendJSON` (`none` for the body-less OPTIONS reply). -/
structure Response where
  status : Nat
  body : Option JSValue

/-- `sendJSON(res, 200, { success: true })`. -/
def okSuccess : Response :=
  ⟨200, some (.obj [("success", .bool true)])⟩

/-- A 400 response with a single `error` message field. -/
def errorResponse (msg : String) : Response :=
  ⟨400, some (.obj [("error", .str msg)])⟩

/-- The uniform catch-all reply when the JSON body fails to parse. -/
def invalidJSON : Response := errorResponse "Invalid JSON"

/-- `sendJSON(res, 404, { error: "Not found" })`. -/
def notFound : Response :=
  ⟨404, some (.obj [("error", .str "Not found")])⟩

/-- The events the core forwards to the presentation layer (the
`webContents.send` calls / the `callbacks.onX` invocations), plus the
reason-tagged invocation of the `disconnect(reason)` path. -/
inductive Event where
  | pttPress
  | pttRelease
  | connect (url : JSValue)
  | disconnect (reason : String)
  | frequencyChange (frequency : String)
  | frequenciesUpdate (frequencies : JSValue)
  | activeChannelChange (frequency : String)
  | earSideChange (payload : JSValue)
  | frequencyDisconnect (frequency : String)

/-- Recognizer for `ptt:press` events (used to count emissions). -/
def isPressEvent : Event → Bool
  | .pttPress => true
  | _ => false

/-- Recognizer for `ptt:release` events. -/
def isReleaseEvent : Event → Bool
  | .pttRelease => true
  | _ => false

/-- The main process's mutable session state: `mainWindow` (whether a
presentation window is attached), `isPTTPressed`, `serverURL`
(initialised to `null`, set by `/connect`) and `lastHeartbeat`
(a `Date.now()` timestamp, `null` until first connect/heartbeat). -/
structure ServerState where
  mainWindow : Bool
  isPTTPressed : Bool
  serverURL : JSValue
  lastHeartbeat : Option Nat

/-- The state at process start. -/
def initialState : ServerState :=
  ⟨false, false, .null, none⟩

/-- `HEARTBEAT_TIMEOUT = 30000` ms. -/
def HEARTBEAT_TIMEOUT : Nat := 30000

/-- The heartbeat monitor's `setInterval` period, 5000 ms. -/
def HEARTBEAT_CHECK_INTERVAL : Nat := 5000

/-- `main.cjs` `disconnect(reason)`: release PTT (event included) when it
is held *and* a window is attached, then clear `serverURL` and
`lastHeartbeat`.  The `Event.disconnect reason` entry records the
reason-tagged invocation of this path (the `onDisconnect` callback). -/
def disconnect (reason : String) (s : ServerState) : ServerState × List Event :=
  if s.isPTTPressed && s.mainWindow then
    (⟨s.mainWindow, false, .null, none⟩, [.disconnect reason, .pttRelease])
  else
    (⟨s.mainWindow, s.isPTTPressed, .null, none⟩, [.disconnect reason])

/-- One firing of the heartbeat monitor's interval callback
(`startHeartbeatCheck`): when `lastHeartbeat` and `serverURL` are both
truthy and more than `HEARTBEAT_TIMEOUT` has elapsed, run the same
`disconnect` path with reason `"heartbeat_timeout"`. -/
def heartbeatTick (now : Nat) (s : ServerState) : ServerState × List Event :=
  match s.lastHeartbeat with
  | some t =>
      if t ≠ 0 && s.serverURL.truthy then
        if HEARTBEAT_TIMEOUT < now - t then disconnect "heartbeat_timeout" s
        else (s, [])
      else (s, [])
  | none => (s, [])

/-- Which (method, url) pairs read and parse a JSON request body. -/
def parsesBody (method url : String) : Bool :=
  method == "POST" &&
    (url == "/connect" || url == "/frequency" || url == "/frequencies" ||
     url == "/active-channel" || url == "/ear-side" || url == "/frequency/disconnect")

/-- The (method, url) pairs matched by some branch of the handler,
including the CORS-preflight branch that answers every OPTIONS request. -/
def inRouteTable (method url : String) : Bool :=
  method == "OPTIONS" ||
  (url == "/ptt/press" && method == "POST") ||
  (url == "/ptt/release" && method == "POST") ||
  (url == "/status" && method == "GET") ||
  (url == "/connect" && method == "POST") ||
  (url == "/disconnect" && method == "POST") ||
  (url == "/heartbeat" && method == "POST") ||
  (url == "/frequency" && method == "POST") ||
  (url == "/frequencies" && method == "POST") ||
  (url == "/active-channel" && method == "POST") ||
  (url == "/ear-side" && method == "POST") ||
  (url == "/frequency/disconnect" && method == "POST")

/-- The branches of the handler's `if / else if` chain, in source
order; `options` is the CORS-preflight branch checked first. -/
inductive Route where
  | options
  | pttPress
  | pttRelease
  | status
  | connect
  | disconnect
  | heartbeat
  | frequency
  | frequencies
  | activeChannel
  | earSide
  | frequencyDisconnect

/-- The handler's routing: the first branch of the `if / else if` chain
matching (method, url), or `none` for the final 404 branch. -/
def routeOf (method url : String) : Option Route :=
  if method == "OPTIONS" then some .options
  else if url == "/ptt/press" && method == "POST" then some .pttPress
  else if url == "/ptt/release" && method == "POST" then some .pttRelease
  else if url == "/status" && method == "GET" then some .status
  else if url == "/connect" && method == "POST" then some .connect
  else if url == "/disconnect" && method == "POST" then some .disconnect
  else if url == "/heartbeat" && method == "POST" then some .heartbeat
  else if url == "/frequency" && method == "POST" then some .frequency
  else if url == "/frequencies" && method == "POST" then some .frequencies
  else if url == "/active-channel" && method == "POST" then some .activeChannel
  else if url == "/ear-side" && method == "POST" then some .earSide
  else if url == "/frequency/disconnect" && method == "POST" then some .frequencyDisconnect
  else none

/-- The body of each branch of `createRequestHandler`
(`lib/httpServer.cjs`; the inline handler in `main.cjs` has the same
routing and state logic).  `body` is the outcome of JSON-parsing the
request body (`Except.error` when `JSON.parse` threw; the `try/catch`
around the handler turns that into the uniform `invalidJSON` reply on
every route that awaits the body).  A successfully parsed body that is
nullish (the JSON text `null`) makes the first `data.field` access of
each body-reading route throw a TypeError, which the same `try/catch`
also answers with `invalidJSON`: the `isNullish` guard at the head of
those routes models that throw.  The callbacks are wired the way the
application wires them: event callbacks forward to the presentation
layer, `onDisconnect` is `main.cjs`'s `disconnect`. -/
def handleRoute (route : Route) (body : Except Unit JSValue)
    (now : Nat) (s : ServerState) : ServerState × List Event × Response :=
  match route with
  | .options =>
    (s, [], ⟨200, none⟩)
  | .pttPress =>
    if s.mainWindow && !s.isPTTPressed then
      ({ s with isPTTPressed := true }, [.pttPress], okSuccess)
    else
      (s, [], okSuccess)
  | .pttRelease =>
    if s.mainWindow && s.isPTTPressed then
      ({ s with isPTTPressed := false }, [.pttRelease], okSuccess)
    else
      (s, [], okSuccess)
  | .status =>
    (s, [], ⟨200, some (.obj [
      ("running", .bool true),
      ("status", .str (getConnectionStatus s.serverURL s.mainWindow)),
      ("pttPressed", .bool s.isPTTPressed),
      ("connected", .bool (!s.serverURL.isNull)),
      ("serverURL", s.serverURL)])⟩)
  | .connect =>
    match body with
    | .error _ => (s, [], invalidJSON)
    | .ok data =>
        if data.isNullish then (s, [], invalidJSON)
        else if (data.getField "url").truthy then
          ({ s with serverURL := data.getField "url", lastHeartbeat := some now },
           [.connect (data.getField "url")],
           ⟨200, some (.obj [("success", .bool true), ("url", data.getField "url")])⟩)
        else
          (s, [], errorResponse "Missing url parameter")
  | .disconnect =>
    ((disconnect "manual" s).1, (disconnect "manual" s).2, okSuccess)
  | .heartbeat =>
    ({ s with lastHeartbeat := some now }, [], okSuccess)
  | .frequency =>
    match body with
    | .error _ => (s, [], invalidJSON)
    | .ok data =>
        if data.isNullish then (s, [], invalidJSON)
        else if !(data.getField "frequency").isUndefined then
          (s, [.frequencyChange (frequencyToString (data.getField "frequency"))],
           ⟨200, some (.obj [("success", .bool true),
             ("frequency", .str (frequencyToString (data.getField "frequency")))])⟩)
        else
          (s, [], errorResponse "Missing frequency parameter")
  | .frequencies =>
    match body with
    | .error _ => (s, [], invalidJSON)
    | .ok data =>
        if data.isNullish then (s, [], invalidJSON)
        else if !(data.getField "frequencies").isArray then
          (s, [], errorResponse "frequencies must be an array")
        else if !isValidFrequenciesArray (data.getField "frequencies") then
          (s, [], errorResponse "Invalid frequency format. Expected: [\x7bfrequency: number, earSide: 0|1|2\x7d]")
        else
          let fws := (data.getField "frequencies").asArray.map fun f =>
            JSValue.obj [("frequency", .str (frequencyToString (f.getField "frequency"))),
                         ("earSide", f.getField "earSide")]
          (s, [.frequenciesUpdate (.arr fws)],
           ⟨200, some (.obj [("success", .bool true),
             ("count", .num (.finite (fws.length : Rat)))])⟩)
  | .activeChannel =>
    match body with
    | .error _ => (s, [], invalidJSON)
    | .ok data =>
        if data.isNullish then (s, [], invalidJSON)
        else if !(data.getField "frequency").isNumber then
          (s, [], errorResponse "frequency must be a number")
        else
          (s, [.activeChannelChange (frequencyToString (data.getField "frequency"))],
           ⟨200, some (.obj [("success", .bool true),
             ("frequency", .str (frequencyToString (data.getField "frequency")))])⟩)
  | .earSide =>
    match body with
    | .error _ => (s, [], invalidJSON)
    | .ok data =>
        if data.isNullish then (s, [], invalidJSON)
        else if !(data.getField "frequency").isNumber || !(data.getField "earSide").isNumber then
          (s, [], errorResponse "frequency and earSide must be numbers")
        else if !(data.getField "earSide").inZeroOneTwo then
          (s, [], errorResponse "earSide must be 0 (left), 1 (right), or 2 (both)")
        else
          (s, [.earSideChange (.obj [("frequency", .str (frequencyToString (data.getField "frequency"))),
                                     ("earSide", data.getField "earSide")])],
           ⟨200, some (.obj [("success", .bool true),
             ("frequency", .str (frequencyToString (data.getField "frequency"))),
             ("earSide", data.getField "earSide")])⟩)
  | .frequencyDisconnect =>
    match body with
    | .error _ => (s, [], invalidJSON)
    | .ok data =>
        if data.isNullish then (s, [], invalidJSON)
        else if !(data.getField "frequency").isNumber then
          (s, [], errorResponse "frequency must be a number")
        else
          (s, [.frequencyDisconnect (frequencyToString (data.getField "frequency"))],
           ⟨200, some (.obj [("success", .bool true),
             ("frequency", .str (frequencyToString (data.getField "frequency")))])⟩)

/-- The request handler as a pure transition function: dispatch on
(method, url) per the `if / else if` chain, the final `else` branch
being the 404 reply. -/
def handleRequest (method url : String) (body : Except Unit JSValue)
    (now : Nat) (s : ServerState) : ServerState × List Event × Response :=
  match routeOf method url with
  | some route => handleRoute route body now s
  | none => (s, [], notFound)

/-- `lib/httpServer.cjs` `parseJSONBody`: an empty (hence falsy) body
string resolves to the empty object, otherwise the text goes to
`JSON.parse` (kept abstract as the `jsonParse` argument; a thrown parse
error is the `Except.error` outcome). -/
def parseJSONBody (jsonParse : String → Except Unit JSValue) (body : String) :
    Except Unit JSValue :=
  if body == "" then .ok (.obj []) else jsonParse body

/-- One observable transition of the live system: an HTTP request (with
a positive `Date.now()` reading), a heartbeat-monitor tick, or the
presentation window being created / closed (`createWindow` and the
window's `closed` handler touch only `mainWindow`). -/
inductive Step : ServerState → ServerState → Prop where
  | request (method url : String) (body : Except Unit JSValue) (now : Nat)
      (hnow : 0 < now) (s : ServerState) :
      Step s (handleRequest method url body now s).1
  | tick (now : Nat) (s : ServerState) :
      Step s (heartbeatTick now s).1
  | windowCreated (s : ServerState) :
      Step s { s with mainWindow := true }
  | windowClosed (s : ServerState) :
      Step s { s with mainWindow := false }

/-- Session states of the running process: everything reachable from the
start state through requests, monitor ticks and window lifecycle. -/
inductive Reachable : ServerState → Prop where
  | init : Reachable initialState
  | step {s s' : ServerState} : Reachable s → Step s s' → Reachable s'

/-- The inductive session-state invariant: `serverURL` is `null` or a
truthy value (the `/connect` guard rejects falsy urls), and every stored
heartbeat timestamp is a positive clock reading. -/
def GoodState (s : ServerState) : Prop :=
  (s.serverURL = .null ∨ s.serverURL.truthy = true) ∧
    (∀ t, s.lastHeartbeat = some t → 0 < t)

/-- The spec's characterization of a valid frequency descriptor,
written from its words: a structured (non-null, object-typed) value
whose `frequency` field is numeric and whose `earSide` field is a
number equal to 0, 1 or 2.  Compared against `isValidFrequency`. -/
def SpecFrequencyDescriptor (x : JSValue) : Prop :=
  (x.typeofIsObject = true ∧ x ≠ .null) ∧
  (∃ n : JSNum, x.getField "frequency" = .num n) ∧
  (∃ q : Rat, x.getField "earSide" = .num (.finite q) ∧ (q = 0 ∨ q = 1 ∨ q = 2))

/-- The `error` message of a JSON error reply, when the body has one. -/
def Response.errorText (r : Response) : Option String :=
  match r.body with
  | some b =>
      match b.getField "error" with
      | .str m => some m
      | _ => none
  | none => none

theorem disconnect_goodState (reason : String) (s : ServerState) :
    GoodState (disconnect reason s).1 := by
  unfold disconnect
  split <;> exact ⟨Or.inl rfl, fun t h => Option.noConfusion h⟩

theorem handleRoute_goodState (route : Route) (body : Except Unit JSValue)
    (now : Nat) (hnow : 0 < now) (s : ServerState) (hs : GoodState s) :
    GoodState (handleRoute route body now s).1 := by
  obtain ⟨hurl, hhb⟩ := hs
  cases route <;> simp only [handleRoute]
  case options => exact ⟨hurl, hhb⟩
  case pttPress =>
    split
    · exact ⟨hurl, hhb⟩
    · exact ⟨hurl, hhb⟩
  case pttRelease =>
    split
    · exact ⟨hurl, hhb⟩
    · exact ⟨hurl, hhb⟩
  case status => exact ⟨hurl, hhb⟩
  case connect =>
    match body with
    | .error _ => exact ⟨hurl, hhb⟩
    | .ok data =>
        simp only
        split
        · exact ⟨hurl, hhb⟩
        split
        · next htruthy =>
            refine ⟨Or.inr htruthy, fun t h => ?_⟩
            simp only [Option.some.injEq] at h
            omega
        · exact ⟨hurl, hhb⟩
  case disconnect => exact disconnect_goodState "manual" s
  case heartbeat =>
    refine ⟨hurl, fun t h => ?_⟩
    simp only [Option.some.injEq] at h
    omega
  case frequency =>
    match body with
    | .error _ => exact ⟨hurl, hhb⟩
    | .ok data =>
        simp only
        split
        · exact ⟨hurl, hhb⟩
        split
        · exact ⟨hurl, hhb⟩
        · exact ⟨hurl, hhb⟩
  case frequencies =>
    match body with
    | .error _ => exact ⟨hurl, hhb⟩
    | .ok data =>
        simp only
        split
        · exact ⟨hurl, hhb⟩
        split
        · exact ⟨hurl, hhb⟩
        split
        · exact ⟨hurl, hhb⟩
        · exact ⟨hurl, hhb⟩
  case activeChannel =>
    match body with
    | .error _ => exact ⟨hurl, hhb⟩
    | .ok data =>
        simp only
        split
        · exact ⟨hurl, hhb⟩
        split
        · exact ⟨hurl, hhb⟩
        · exact ⟨hurl, hhb⟩
  case earSide =>
    match body with
    | .error _ => exact ⟨hurl, hhb⟩
    | .ok data =>
        simp only
        split
        · exact ⟨hurl, hhb⟩
        split
        · exact ⟨hurl, hhb⟩
        split
        · exact ⟨hurl, hhb⟩
        · exact ⟨hurl, hhb⟩
  case frequencyDisconnect =>
    match body with
    | .error _ => exact ⟨hurl, hhb⟩
    | .ok data =>
        simp only
        split
        · exact ⟨hurl, hhb⟩
        split
        · exact ⟨hurl, hhb⟩
        · exact ⟨hurl, hhb⟩

theorem handleRequest_goodState (method url : String) (body : Except Unit JSValue)
    (now : Nat) (hnow : 0 < now) (s : ServerState) (hs : GoodState s) :
    GoodState (handleRequest method url body now s).1 := by
  unfold handleRequest
  match routeOf method url with
  | some route => exact handleRoute_goodState route body now hnow s hs
  | none => exact hs

theorem heartbeatTick_goodState (now : Nat) (s : ServerState) (hs : GoodState s) :
    GoodState (heartbeatTick now s).1 := by
  unfold heartbeatTick
  split
  · split
    · split
      · exact disconnect_goodState "heartbeat_timeout" s
      · exact hs
    · exact hs
  · exact hs

/-- Every reachable session state satisfies the invariant. -/
theorem reachable_goodState {s : ServerState} (h : Reachable s) : GoodState s := by
  induction h with
  | init => exact ⟨Or.inl rfl, fun t h => by simp [initialState] at h⟩
  | step _ hstep ih =>
      cases hstep with
      | request method url body now hnow _ =>
          exact handleRequest_goodState method url body now hnow _ ih
      | tick now _ => exact heartbeatTick_goodState now _ ih
      | windowCreated _ => exact ⟨ih.1, ih.2⟩
      | windowClosed _ => exact ⟨ih.1, ih.2⟩

/-- A truthy JS value is in particular not `null`. -/
theorem truthy_ne_null {x : JSValue} (h : x.truthy = true) : x ≠ JSValue.null := by
  intro he
  subst he
  simp [JSValue.truthy] at h

/-- The `disconnect` path always records its reason-tagged invocation,
so its event list is never empty. -/
theorem disconnect_events_ne_nil (reason : String) (s : ServerState) :
    (disconnect reason s).2 ≠ [] := by
  unfold disconnect
  split <;> simp

/-- Unfolding of `parsesBody` into the six body-reading POST routes. -/
theorem parsesBody_cases {method url : String} (h : parsesBody method url = true) :
    method = "POST" ∧ (url = "/connect" ∨ url = "/frequency" ∨ url = "/frequencies" ∨
      url = "/active-channel" ∨ url = "/ear-side" ∨ url = "/frequency/disconnect") := by
  unfold parsesBody at h
  simp only [Bool.and_eq_true, Bool.or_eq_true, beq_iff_eq] at h
  exact ⟨h.1, by tauto⟩

/-- A (method, url) pair outside the route table falls through every
branch of the routing chain. -/
theorem routeOf_eq_none {method url : String} (h : inRouteTable method url = false) :
    routeOf method url = none := by
  unfold inRouteTable at h
  simp only [Bool.or_eq_false_iff] at h
  obtain ⟨⟨⟨⟨⟨⟨⟨⟨⟨⟨⟨h1, h2⟩, h3⟩, h4⟩, h5⟩, h6⟩, h7⟩, h8⟩, h9⟩, h10⟩, h11⟩, h12⟩ := h
  unfold routeOf
  simp only [h1, h2, h3, h4, h5, h6, h7, h8, h9, h10, h11, h12, Bool.false_eq_true, if_false]

/-- C1 (amended): from any session state with the presentation surface
attached *and PTT not already pressed*, handling POST /ptt/press twice
in a row emits exactly one press event (the second press is a no-op),
handling POST /ptt/release emits zero release events, and every one of
these requests is answered 200 `{success:true}`.  (The original claim,
quantified over every attached state, fails when PTT is already
pressed: both presses are then no-ops, see the counterexample.) -/
theorem c1_ptt_idempotence_amended (s : ServerState) (b1 b2 : Except Unit JSValue)
    (n1 n2 : Nat) (hw : s.mainWindow = true) (hp : s.isPTTPressed = false) :
    ((handleRequest "POST" "/ptt/press" b1 n1 s).2.1 ++
      (handleRequest "POST" "/ptt/press" b2 n2
        (handleRequest "POST" "/ptt/press" b1 n1 s).1).2.1).countP isPressEvent = 1 ∧
    (handleRequest "POST" "/ptt/press" b1 n1 s).2.2 = okSuccess ∧
    (handleRequest "POST" "/ptt/press" b2 n2
      (handleRequest "POST" "/ptt/press" b1 n1 s).1).2.2 = okSuccess ∧
    (handleRequest "POST" "/ptt/release" b1 n1 s).2.1.countP isReleaseEvent = 0 ∧
    (handleRequest "POST" "/ptt/release" b1 n1 s).2.2 = okSuccess := by
  have hpress : ∀ b n (st : ServerState),
      handleRequest "POST" "/ptt/press" b n st = handleRoute .pttPress b n st :=
    fun _ _ _ => rfl
  have hrel : ∀ b n (st : ServerState),
      handleRequest "POST" "/ptt/release" b n st = handleRoute .pttRelease b n st :=
    fun _ _ _ => rfl
  simp only [hpress, hrel, handleRoute, hw, hp]
  simp [isPressEvent, isReleaseEvent]

/-- C1 counterexample: in the attached session state where PTT is
already pressed (reachable by a prior /ptt/press), handling press twice
in a row emits zero press events, not exactly one. -/
theorem c1_counterexample :
    (⟨true, true, JSValue.null, none⟩ : ServerState).mainWindow = true ∧
    ¬ (((handleRequest "POST" "/ptt/press" (.ok (.obj [])) 1 ⟨true, true, .null, none⟩).2.1 ++
        (handleRequest "POST" "/ptt/press" (.ok (.obj [])) 2
          (handleRequest "POST" "/ptt/press" (.ok (.obj [])) 1
            ⟨true, true, .null, none⟩).1).2.1).countP isPressEvent = 1) := by
  decide

/-- C1 witness: the amended theorem applied at the attached, released
state. -/
theorem c1_witness :
    (⟨true, false, JSValue.null, none⟩ : ServerState).mainWindow = true ∧
    ((handleRequest "POST" "/ptt/press" (.ok (.obj [])) 1 ⟨true, false, .null, none⟩).2.1 ++
      (handleRequest "POST" "/ptt/press" (.ok (.obj [])) 2
        (handleRequest "POST" "/ptt/press" (.ok (.obj [])) 1
          ⟨true, false, .null, none⟩).1).2.1).countP isPressEvent = 1 :=
  ⟨rfl, (c1_ptt_idempotence_amended ⟨true, false, .null, none⟩
    (.ok (.obj [])) (.ok (.obj [])) 1 2 rfl rfl).1⟩

/-- C2 (amended): `getConnectionStatus` is a pure total Lean function;
it maps (null, false) to DISCONNECTED, (null, true) to
WAITING_FOR_CONNECTION, and every *non-empty* URL string to CONNECTED
regardless of presentation attachment.  (The original "every set URL"
fails on the empty string, which JavaScript's truthiness test rejects:
see the counterexample.) -/
theorem c2_resolveStatus_amended :
    getConnectionStatus JSValue.null false = "DISCONNECTED" ∧
    getConnectionStatus JSValue.null true = "WAITING_FOR_CONNECTION" ∧
    ∀ (u : String) (b : Bool), u ≠ "" → getConnectionStatus (JSValue.str u) b = "CONNECTED" := by
  refine ⟨rfl, rfl, fun u b hu => ?_⟩
  unfold getConnectionStatus
  simp [JSValue.truthy, hu]

/-- C2 counterexample: the empty string is a set (non-null) URL, yet
`getConnectionStatus` does not report CONNECTED for it. -/
theorem c2_counterexample :
    getConnectionStatus (JSValue.str "") false ≠ "CONNECTED" ∧
    getConnectionStatus (JSValue.str "") true ≠ "CONNECTED" := by
  decide

/-- C2 witness: the amended theorem applied at a concrete URL. -/
theorem c2_witness :
    ("http://x" : String) ≠ "" ∧ getConnectionStatus (JSValue.str "http://x") true = "CONNECTED" :=
  ⟨by decide, c2_resolveStatus_amended.2.2 "http://x" true (by decide)⟩

/-- C3: in every reachable session state, `serverURL` is non-null iff
the derived status is CONNECTED; the GET /status reply computes its
`connected` field as `serverURL !== null` (second conjunct ties the
Boolean to non-nullness) and carries the derived status string (third
conjunct), so `connected` is true exactly when `status = "CONNECTED"`. -/
theorem c3_connected_iff_status (s : ServerState) (h : Reachable s) :
    (s.serverURL ≠ JSValue.null ↔ getConnectionStatus s.serverURL s.mainWindow = "CONNECTED") ∧
    ((!s.serverURL.isNull) = true ↔ s.serverURL ≠ JSValue.null) ∧
    (∀ body now, (handleRequest "GET" "/status" body now s).2.2 =
      ⟨200, some (.obj [("running", .bool true),
        ("status", .str (getConnectionStatus s.serverURL s.mainWindow)),
        ("pttPressed", .bool s.isPTTPressed),
        ("connected", .bool (!s.serverURL.isNull)),
        ("serverURL", s.serverURL)])⟩) := by
  have good := reachable_goodState h
  refine ⟨?_, ?_, fun body now => rfl⟩
  · rcases good.1 with hnull | htru
    · rw [hnull]
      cases hw : s.mainWindow <;> simp [getConnectionStatus, JSValue.truthy]
    · simp [getConnectionStatus, htru, truthy_ne_null htru]
  · cases hv : s.serverURL <;> simp [JSValue.isNull]

/-- C3 witness: the theorem applied at the (reachable) initial state. -/
theorem c3_witness :
    ¬ initialState.serverURL = JSValue.null ↔
      getConnectionStatus initialState.serverURL initialState.mainWindow = "CONNECTED" :=
  (c3_connected_iff_status initialState Reachable.init).1

/-- C4 (amended): for a parsed body that is the JSON value `null`, the
access `data.url` throws and POST /connect answers the generic 400
"Invalid JSON"; for every other parsed body it answers 400 "Missing url
parameter" exactly when `body.url` is absent *or otherwise falsy* (the
guard is JS truthiness, so an empty string, 0, false or null is also
rejected); for every truthy url it sets `serverURL`, refreshes
`lastHeartbeat` to now, emits the connect event with the url and
answers 200 `{success:true, url}`, with no other validation. -/
theorem c4_connect_amended (s : ServerState) (now : Nat) (data : JSValue) :
    handleRequest "POST" "/connect" (.ok data) now s =
      if data.isNullish then
        (s, [], invalidJSON)
      else if (data.getField "url").truthy then
        ({ s with serverURL := data.getField "url", lastHeartbeat := some now },
         [.connect (data.getField "url")],
         ⟨200, some (.obj [("success", .bool true), ("url", data.getField "url")])⟩)
      else
        (s, [], errorResponse "Missing url parameter") := rfl

/-- C4 counterexample: a body whose `url` field is present (the empty
string) is still answered 400, refuting "400 exactly when body.url is
absent". -/
theorem c4_counterexample :
    ((JSValue.obj [("url", JSValue.str "")]).getField "url" = JSValue.str "") ∧
    (handleRequest "POST" "/connect" (.ok (.obj [("url", .str "")])) 1 initialState).2.2 =
      errorResponse "Missing url parameter" :=
  ⟨rfl, rfl⟩

/-- C5 (amended): `disconnect(reason)` always clears `serverURL` and
`lastHeartbeat` and leaves the window flag alone; it clears
`pttPressed` and emits exactly one release event iff PTT was held
*and the presentation surface was attached* — with the window gone, a
held PTT flag survives and no release is emitted (see the
counterexample).  POST /disconnect invokes this path with reason
"manual".  -/
theorem c5_disconnect_amended (reason : String) (s : ServerState) :
    (disconnect reason s).1.serverURL = JSValue.null ∧
    (disconnect reason s).1.lastHeartbeat = none ∧
    (disconnect reason s).1.mainWindow = s.mainWindow ∧
    (disconnect reason s).1.isPTTPressed = (s.isPTTPressed && !s.mainWindow) ∧
    (disconnect reason s).2.countP isReleaseEvent =
      (if s.isPTTPressed && s.mainWindow then 1 else 0) ∧
    Event.disconnect reason ∈ (disconnect reason s).2 ∧
    (∀ body now, handleRequest "POST" "/disconnect" body now s =
      ((disconnect "manual" s).1, (disconnect "manual" s).2, okSuccess)) := by
  obtain ⟨w, p, u, hb⟩ := s
  cases w <;> cases p <;>
    simp [disconnect, isReleaseEvent, handleRequest, routeOf, handleRoute]

/-- C5 counterexample: with the window detached and PTT held,
`disconnect` leaves `pttPressed = true` and emits no release event,
refuting "leaves pttPressed = false, release emitted exactly when
pttPressed was true".  (The state is reachable: press PTT with the
window attached, then close the window.) -/
theorem c5_counterexample :
    (⟨false, true, JSValue.str "http://x", some 5⟩ : ServerState).isPTTPressed = true ∧
    (disconnect "manual" ⟨false, true, JSValue.str "http://x", some 5⟩).1.isPTTPressed = true ∧
    (disconnect "manual" ⟨false, true, JSValue.str "http://x", some 5⟩).2.countP isReleaseEvent = 0 :=
  ⟨rfl, rfl, rfl⟩

/-- C6: in every reachable session state, a heartbeat-monitor tick
triggers the reason-"heartbeat_timeout" disconnect path iff
`serverURL` is set, `lastHeartbeat` is set and more than
HEARTBEAT_TIMEOUT has elapsed since it (first two conjuncts);
POST /heartbeat only refreshes `lastHeartbeat` and answers
200 `{success:true}` (third conjunct); a tick within the timeout of the
last heartbeat changes nothing (fourth conjunct), so a session
receiving timely heartbeats is never auto-disconnected. -/
theorem c6_heartbeat_monitor (now : Nat) (s : ServerState) (h : Reachable s) :
    ((heartbeatTick now s).2 ≠ [] ↔
      (s.serverURL ≠ JSValue.null ∧ ∃ t, s.lastHeartbeat = some t ∧ HEARTBEAT_TIMEOUT < now - t)) ∧
    ((heartbeatTick now s).2 ≠ [] → heartbeatTick now s = disconnect "heartbeat_timeout" s) ∧
    (∀ body, handleRequest "POST" "/heartbeat" body now s =
      ({ s with lastHeartbeat := some now }, [], okSuccess)) ∧
    (∀ t, s.lastHeartbeat = some t → now - t ≤ HEARTBEAT_TIMEOUT → heartbeatTick now s = (s, [])) := by
  have good := reachable_goodState h
  have main : (heartbeatTick now s = disconnect "heartbeat_timeout" s ∧
        (s.serverURL ≠ JSValue.null ∧ ∃ t, s.lastHeartbeat = some t ∧ HEARTBEAT_TIMEOUT < now - t)) ∨
      (heartbeatTick now s = (s, []) ∧
        ¬ (s.serverURL ≠ JSValue.null ∧ ∃ t, s.lastHeartbeat = some t ∧ HEARTBEAT_TIMEOUT < now - t)) := by
    cases hl : s.lastHeartbeat with
    | none =>
        right
        refine ⟨by simp [heartbeatTick, hl], ?_⟩
        rintro ⟨-, t, hl2, -⟩
        exact Option.noConfusion hl2
    | some t =>
        have ht : 0 < t := good.2 t hl
        rcases good.1 with hnull | htru
        · right
          refine ⟨by simp [heartbeatTick, hl, hnull, JSValue.truthy], ?_⟩
          rintro ⟨hne, -⟩
          exact hne hnull
        · by_cases hgt : HEARTBEAT_TIMEOUT < now - t
          · left
            refine ⟨?_, truthy_ne_null htru, t, rfl, hgt⟩
            simp [heartbeatTick, hl, htru, Nat.pos_iff_ne_zero.mp ht, hgt]
          · right
            refine ⟨?_, ?_⟩
            · simp [heartbeatTick, hl, htru, Nat.pos_iff_ne_zero.mp ht, hgt]
            · rintro ⟨-, t2, hl2, hgt2⟩
              injection hl2 with he
              subst he
              exact hgt hgt2
  refine ⟨?_, ?_, fun _ => rfl, ?_⟩
  · rcases main with ⟨heq, hc⟩ | ⟨heq, hnc⟩
    · rw [heq]
      exact iff_of_true (disconnect_events_ne_nil _ s) hc
    · rw [heq]
      exact iff_of_false (fun hne => hne rfl) hnc
  · intro hne
    rcases main with ⟨heq, -⟩ | ⟨heq, -⟩
    · exact heq
    · rw [heq] at hne
      exact absurd rfl hne
  · intro t hl hle
    rcases main with ⟨-, -, t2, hl2, hgt⟩ | ⟨heq, -⟩
    · rw [hl] at hl2
      injection hl2 with he
      subst he
      omega
    · exact heq

/-- C6 witness: the theorem applied at a connected state reachable via
POST /connect at time 1; a tick at time 40000 disconnects, a tick at
time 20000 does nothing. -/
theorem c6_witness :
    heartbeatTick 40000 (⟨false, false, JSValue.str "http://x", some 1⟩ : ServerState) =
      disconnect "heartbeat_timeout" ⟨false, false, JSValue.str "http://x", some 1⟩ ∧
    heartbeatTick 20000 (⟨false, false, JSValue.str "http://x", some 1⟩ : ServerState) =
      (⟨false, false, JSValue.str "http://x", some 1⟩, []) := by
  have hr : Reachable (⟨false, false, JSValue.str "http://x", some 1⟩ : ServerState) :=
    Reachable.step Reachable.init
      (Step.request "POST" "/connect" (.ok (.obj [("url", .str "http://x")])) 1
        (by decide) initialState)
  refine ⟨(c6_heartbeat_monitor 40000 _ hr).2.1 ?_, (c6_heartbeat_monitor 20000 _ hr).2.2.2 1 rfl (by decide)⟩
  exact (c6_heartbeat_monitor 40000 _ hr).1.mpr
    ⟨fun he => JSValue.noConfusion he, 1, rfl, by decide⟩

/-- C7: `isValidFrequency` decides exactly the spec's descriptor shape
(non-null object value, numeric `frequency`, numeric `earSide` equal to
0, 1 or 2), returning false on every other input without raising, and
`isValidFrequenciesArray` holds exactly for arrays (possibly empty) all
of whose elements are valid, and is false on every non-array. -/
theorem c7_validators :
    (∀ x : JSValue, isValidFrequency x = true ↔ SpecFrequencyDescriptor x) ∧
    (∀ xs : JSValue, isValidFrequenciesArray xs = true ↔
      ∃ l, xs = JSValue.arr l ∧ ∀ x ∈ l, isValidFrequency x = true) := by
  constructor
  · intro x
    unfold isValidFrequency SpecFrequencyDescriptor
    constructor
    · intro h
      simp only [Bool.and_eq_true] at h
      obtain ⟨⟨⟨⟨hobj, hnn⟩, hfn⟩, hen⟩, he012⟩ := h
      refine ⟨⟨hobj, ?_⟩, ?_, ?_⟩
      · intro he; subst he; simp [JSValue.isNull] at hnn
      · cases hf : x.getField "frequency" <;> simp [hf, JSValue.isNumber] at hfn ⊢
      · cases he : x.getField "earSide" with
        | num n =>
            cases n with
            | finite q =>
                refine ⟨q, rfl, ?_⟩
                rw [he] at he012
                simp [JSValue.inZeroOneTwo] at he012
                tauto
            | nan => rw [he] at he012; simp [JSValue.inZeroOneTwo] at he012
            | posInf => rw [he] at he012; simp [JSValue.inZeroOneTwo] at he012
            | negInf => rw [he] at he012; simp [JSValue.inZeroOneTwo] at he012
        | _ => (rw [he] at he012; simp [JSValue.inZeroOneTwo] at he012)
    · rintro ⟨⟨hobj, hnn⟩, ⟨n, hfn⟩, ⟨q, heq, h012⟩⟩
      have hnn2 : x.isNull = false := by
        cases x
        case null => exact absurd rfl hnn
        all_goals rfl
      simp only [Bool.and_eq_true, hobj, hnn2, hfn, heq, JSValue.isNumber, JSValue.inZeroOneTwo]
      simp only [Bool.not_false, Bool.and_true, true_and]
      rcases h012 with rfl | rfl | rfl <;> decide
  · intro xs
    cases xs <;> simp [isValidFrequenciesArray, List.all_eq_true]

/-- C8: `frequencyToString` is the default JS string conversion on
every numeric input (first conjunct, total by construction), sending
ordinary finite numbers to their default decimal text — `Rat.mk' 453 10`
is the rational 45.3 — and the special values to their literals. -/
theorem c8_frequencyToString :
    (∀ n : JSNum, frequencyToString (JSValue.num n) = n.toJSString) ∧
    frequencyToString (JSValue.num (.finite (Rat.mk' 453 10))) = "45.3" ∧
    frequencyToString (JSValue.num (.finite 100)) = "100" ∧
    frequencyToString (JSValue.num (.finite 0)) = "0" ∧
    frequencyToString (JSValue.num .nan) = "NaN" ∧
    frequencyToString (JSValue.num .posInf) = "Infinity" := by
  refine ⟨fun n => by simp only [frequencyToString, JSValue.toJSString], ?_, ?_, ?_, ?_, ?_⟩ <;>
    simp only [frequencyToString, JSValue.toJSString, JSNum.toJSString] <;> decide

/-- C9: a JSON-parse failure is answered with the uniform 400
"Invalid JSON" reply on every body-parsing route; every (method, url)
pair outside the route table is answered 404 `{error:"Not found"}`; and
every response of the handler whatsoever has status 200, 400 or 404 —
never a 5xx, and never a propagated exception (the handler is total). -/
theorem c9_uniform_errors (now : Nat) (s : ServerState) :
    (∀ method url, parsesBody method url = true →
      handleRequest method url (.error ()) now s = (s, [], invalidJSON)) ∧
    (∀ method url (body : Except Unit JSValue), inRouteTable method url = false →
      handleRequest method url body now s = (s, [], notFound)) ∧
    (∀ method url (body : Except Unit JSValue),
      (handleRequest method url body now s).2.2.status = 200 ∨
      (handleRequest method url body now s).2.2.status = 400 ∨
      (handleRequest method url body now s).2.2.status = 404) := by
  refine ⟨?_, ?_, ?_⟩
  · intro method url h
    obtain ⟨hm, hu⟩ := parsesBody_cases h
    subst hm
    rcases hu with rfl | rfl | rfl | rfl | rfl | rfl <;> rfl
  · intro method url body h
    unfold handleRequest
    rw [routeOf_eq_none h]
  · intro method url body
    unfold handleRequest
    cases routeOf method url with
    | none => simp [notFound]
    | some route =>
        cases route <;> cases body <;>
          (simp only [handleRoute]; repeat' split) <;>
          simp [okSuccess, errorResponse, invalidJSON]

/-- C9 witness: the theorem applied at a body-parsing route with a
failed parse, and at an unrouted (method, url) pair. -/
theorem c9_witness :
    handleRequest "POST" "/connect" (.error ()) 1 initialState =
      (initialState, [], invalidJSON) ∧
    handleRequest "GET" "/nope" (.ok (.obj [])) 1 initialState =
      (initialState, [], notFound) :=
  ⟨(c9_uniform_errors 1 initialState).1 "POST" "/connect" (by decide),
   (c9_uniform_errors 1 initialState).2.1 "GET" "/nope" (.ok (.obj [])) (by decide)⟩

/-- C10: the library `parseJSONBody` resolves an empty body to the
empty object rather than rejecting, so an empty-body POST /connect is
answered with the route's own 400 "Missing url parameter" (second
conjunct), and on every body-parsing route an empty body draws a 400
whose error message is not the generic "Invalid JSON" (third
conjunct). -/
theorem c10_empty_body (jsonParse : String → Except Unit JSValue) (now : Nat) (s : ServerState) :
    parseJSONBody jsonParse "" = .ok (.obj []) ∧
    handleRequest "POST" "/connect" (parseJSONBody jsonParse "") now s =
      (s, [], errorResponse "Missing url parameter") ∧
    (∀ method url, parsesBody method url = true →
      (handleRequest method url (parseJSONBody jsonParse "") now s).2.2.status = 400 ∧
      (handleRequest method url (parseJSONBody jsonParse "") now s).2.2.errorText ≠
        some "Invalid JSON") := by
  refine ⟨rfl, rfl, ?_⟩
  intro method url h
  obtain ⟨hm, hu⟩ := parsesBody_cases h
  subst hm
  rcases hu with rfl | rfl | rfl | rfl | rfl | rfl
  · exact ⟨rfl, show Response.errorText (errorResponse "Missing url parameter") ≠
      some "Invalid JSON" by decide⟩
  · exact ⟨rfl, show Response.errorText (errorResponse "Missing frequency parameter") ≠
      some "Invalid JSON" by decide⟩
  · exact ⟨rfl, show Response.errorText (errorResponse "frequencies must be an array") ≠
      some "Invalid JSON" by decide⟩
  · exact ⟨rfl, show Response.errorText (errorResponse "frequency must be a number") ≠
      some "Invalid JSON" by decide⟩
  · exact ⟨rfl, show Response.errorText (errorResponse "frequency and earSide must be numbers") ≠
      some "Invalid JSON" by decide⟩
  · exact ⟨rfl, show Response.errorText (errorResponse "frequency must be a number") ≠
      some "Invalid JSON" by decide⟩

/-- C10 witness: the theorem applied to POST /connect with an empty
body under a parse function that would reject everything. -/
theorem c10_witness :
    parsesBody "POST" "/connect" = true ∧
    handleRequest "POST" "/connect" (parseJSONBody (fun _ => .error ()) "") 1 initialState =
      (initialState, [], errorResponse "Missing url parameter") :=
  ⟨by decide, (c10_empty_body (fun _ => .error ()) 1 initialState).2.1⟩
